import Mathlib

/-!
Shallow embedding of the CGAL triangulated-polyhedron self-intersection
detector (self_intersection_polyhedron_3), following the index-addressed
arena representation suggested by the design notes: facets, half-edges and
vertices are integer indices, with next, opposite-facet and head-vertex as
O(1) lookups.  The geometry kernel and the box broad phase are external
collaborators and are modelled as parameters (abstract boolean predicates,
respectively an abstract candidate-pair producer over the built boxes).
-/

/-- Point with exact rational coordinates, standing for Kernel::Point_3. -/
structure Point_3 where
  x : ℚ
  y : ℚ
  z : ℚ
deriving DecidableEq

/-- Segment built from two points, standing for Kernel::Segment_3. -/
abbrev Segment_3 := Point_3 × Point_3

/-- Triangle built from three points, standing for Kernel::Triangle_3. -/
abbrev Triangle_3 := Point_3 × Point_3 × Point_3

/-- Half-edge record: head vertex index and the facet owning the opposite
half-edge (none when the opposite half-edge is a border half-edge). -/
structure HEdge where
  vtx : Nat
  opp : Option Nat
deriving DecidableEq

/-- Facet: its boundary half-edges in cyclic order, the first entry being
the half-edge returned by the facet handle. -/
structure Facet where
  hedges : List HEdge
deriving DecidableEq

/-- Mesh: the facet arena plus the vertex-index-to-point table. -/
structure Mesh where
  facets : List Facet
  pos : Nat → Point_3

/-- Facet lookup by handle (index). -/
def facetAt (m : Mesh) (i : Nat) : Facet := m.facets.getD i ⟨[]⟩

/-- Half-edge reached from the facet entry half-edge by k next steps
(cyclic, so for a triangle position 3 is position 0 again). -/
def heAt (f : Facet) (k : Nat) : HEdge :=
  f.hedges.getD (k % f.hedges.length) ⟨0, none⟩

/-- Point at the head vertex of the k-th half-edge of a facet. -/
def ptAt (m : Mesh) (f : Facet) (k : Nat) : Point_3 := m.pos (heAt f k).vtx

/-- Triangle built from a facet reading its vertices in cyclic order
starting at position k, as the source builds Triangle from a half-edge h:
head of h, head of next, head of next of next. -/
def triangle_of (m : Mesh) (f : Facet) (k : Nat) : Triangle_3 :=
  (ptAt m f k, ptAt m f (k+1), ptAt m f (k+2))

/-- Segment between the two facet vertices after position k in cyclic
order, as the source builds Segment from h-next and h-next-next heads. -/
def segment_of (m : Mesh) (f : Facet) (k : Nat) : Segment_3 :=
  (ptAt m f (k+1), ptAt m f (k+2))

/-- Shared-edge test of the source: does any of the three boundary
half-edges of facet A have its opposite half-edge owned by facet ib. -/
def shares_edge (A : Facet) (ib : Nat) : Bool :=
  (heAt A 0).opp == some ib || (heAt A 1).opp == some ib
    || (heAt A 2).opp == some ib

/-- Shared-vertex scan of the source.  Round r compares the head vertex of
A's half-edge at position r against B's three head vertices with three
successive non-exclusive if statements overwriting v, so inside one round
the LAST matching position of B wins; a later round only runs when the
previous rounds left v unset.  The result is the pair (position in A,
position in B) of half-edge handles the source variables h and v hold
when the scan ends, or none. -/
def scanShared (A B : Facet) : Option (Nat × Nat) :=
  if (heAt A 0).vtx = (heAt B 2).vtx then some (0, 2)
  else if (heAt A 0).vtx = (heAt B 1).vtx then some (0, 1)
  else if (heAt A 0).vtx = (heAt B 0).vtx then some (0, 0)
  else if (heAt A 1).vtx = (heAt B 2).vtx then some (1, 2)
  else if (heAt A 1).vtx = (heAt B 1).vtx then some (1, 1)
  else if (heAt A 1).vtx = (heAt B 0).vtx then some (1, 0)
  else if (heAt A 2).vtx = (heAt B 2).vtx then some (2, 2)
  else if (heAt A 2).vtx = (heAt B 1).vtx then some (2, 1)
  else if (heAt A 2).vtx = (heAt B 0).vtx then some (2, 0)
  else none

/-- Geometry kernel collaborator: exact boolean intersection predicates
for (triangle, segment) and (triangle, triangle), abstract here. -/
structure GKernel where
  triSeg : Triangle_3 → Segment_3 → Bool
  triTri : Triangle_3 → Triangle_3 → Bool

/-- Narrow phase, the body of Intersect_facets::operator() on the facet
handles ia (box b) and ib (box c): shared-edge exclusion first, then the
shared-vertex scan, then the triangle-segment or triangle-triangle
predicates; returns the list of Triangle values written to the output
iterator for this candidate pair.  When no shared vertex was found the
scan has advanced h twice, so the general case reads facet A starting at
position 2, exactly as the source does. -/
def intersect_facets (K : GKernel) (m : Mesh) (ia ib : Nat) : List Triangle_3 :=
  let A := facetAt m ia
  let B := facetAt m ib
  if shares_edge A ib then []
  else
    match scanShared A B with
    | some (r, j) =>
        let t1 := triangle_of m A r
        let t2 := triangle_of m B j
        let s1 := segment_of m A r
        let s2 := segment_of m B j
        if K.triSeg t1 s2 then [t1, t2]
        else if K.triSeg t2 s1 then [t1, t2]
        else []
    | none =>
        let t1 := triangle_of m A 2
        let t2 := triangle_of m B 0
        if K.triTri t1 t2 then [t1, t2] else []

/-- Purity precondition of the source: every facet bounded by exactly 3
half-edges (is_pure_triangle). -/
def is_pure_triangle (m : Mesh) : Bool :=
  m.facets.all (fun f => f.hedges.length == 3)

/-- Bounding box with per-axis min and max, standing for Bbox_3. -/
structure Bbox_3 where
  xmin : ℚ
  ymin : ℚ
  zmin : ℚ
  xmax : ℚ
  ymax : ℚ
  zmax : ℚ
deriving DecidableEq

/-- Degenerate bounding box of a single point, standing for point.bbox(). -/
def point_bbox (p : Point_3) : Bbox_3 := ⟨p.x, p.y, p.z, p.x, p.y, p.z⟩

/-- Bounding-box union (the + operator on Bbox_3): componentwise min of
the minima and max of the maxima. -/
def bbox_add (a b : Bbox_3) : Bbox_3 :=
  ⟨min a.xmin b.xmin, min a.ymin b.ymin, min a.zmin b.zmin,
   max a.xmax b.xmax, max a.ymax b.ymax, max a.zmax b.zmax⟩

/-- Box tagged with the handle of its owning facet, standing for
Box_with_handle_d. -/
structure Box where
  bbox : Bbox_3
  handle : Nat
deriving DecidableEq

/-- Box of one facet, exactly as the enumeration entry point builds it:
bbox of the entry half-edge head, plus bbox of the next head, plus bbox
of the next-next head, tagged with the facet handle. -/
def facet_box (m : Mesh) (i : Nat) : Box :=
  ⟨bbox_add
      (bbox_add (point_bbox (ptAt m (facetAt m i) 0))
        (point_bbox (ptAt m (facetAt m i) 1)))
      (point_bbox (ptAt m (facetAt m i) 2)),
   i⟩

/-- Box builder: one box per facet, in facet order. -/
def make_boxes (m : Mesh) : List Box :=
  (List.range m.facets.length).map (facet_box m)

/-- Sequential processing of the candidate pairs delivered by the broad
phase: each candidate appends its narrow-phase output. -/
def run_candidates (K : GKernel) (m : Mesh) (cands : List (Nat × Nat)) :
    List Triangle_3 :=
  cands.flatMap (fun p => intersect_facets K m p.1 p.2)

/-- Existence scan with the throwing output iterator: the first candidate
pair that writes any output throws, aborting the scan; returns true iff
the exception was thrown. -/
def scan_throw (K : GKernel) (m : Mesh) : List (Nat × Nat) → Bool
  | [] => false
  | p :: rest =>
      if intersect_facets K m p.1 p.2 = [] then scan_throw K m rest else true

/-- Fatal error of the entry points: precondition violation. -/
inductive Mesh_error where
  | invalid_mesh
deriving DecidableEq

/-- Enumeration entry point (self_intersect with an output iterator):
checks the pure-triangulation precondition, builds the boxes, hands them
to the broad-phase collaborator (the parameter broad, abstracting
box_self_intersection_d, which returns the candidate handle pairs), and
runs the narrow phase over every candidate. -/
def self_intersect (K : GKernel) (broad : List Box → List (Nat × Nat))
    (m : Mesh) : Except Mesh_error (List Triangle_3) :=
  if is_pure_triangle m then
    .ok (run_candidates K m (broad (make_boxes m)))
  else .error .invalid_mesh

/-- Existence entry point (boolean self_intersect): same precondition and
box building, but the scan runs with the throwing output iterator and the
internal exception is absorbed into the boolean result. -/
def self_intersect_bool (K : GKernel) (broad : List Box → List (Nat × Nat))
    (m : Mesh) : Except Mesh_error Bool :=
  if is_pure_triangle m then
    .ok (scan_throw K m (broad (make_boxes m)))
  else .error .invalid_mesh

/-- Spec-side scan, written from the specification words for comparison
with scanShared: test each of A's 3 vertices in cyclic order against each
of B's 3 vertices in cyclic order and stop at the first equal pair. -/
def first_shared_vertex (A B : Facet) : Option (Nat × Nat) :=
  if (heAt A 0).vtx = (heAt B 0).vtx then some (0, 0)
  else if (heAt A 0).vtx = (heAt B 1).vtx then some (0, 1)
  else if (heAt A 0).vtx = (heAt B 2).vtx then some (0, 2)
  else if (heAt A 1).vtx = (heAt B 0).vtx then some (1, 0)
  else if (heAt A 1).vtx = (heAt B 1).vtx then some (1, 1)
  else if (heAt A 1).vtx = (heAt B 2).vtx then some (1, 2)
  else if (heAt A 2).vtx = (heAt B 0).vtx then some (2, 0)
  else if (heAt A 2).vtx = (heAt B 1).vtx then some (2, 1)
  else if (heAt A 2).vtx = (heAt B 2).vtx then some (2, 2)
  else none

/-- Candidate pairs on which the narrow phase writes output. -/
def emitted_pairs (K : GKernel) (m : Mesh) (cands : List (Nat × Nat)) :
    List (Nat × Nat) :=
  cands.filter (fun p => !(intersect_facets K m p.1 p.2).isEmpty)

/-- Two index pairs name different unordered facet pairs. -/
def distinct_unordered (p q : Nat × Nat) : Prop :=
  ¬(p.1 = q.1 ∧ p.2 = q.2) ∧ ¬(p.1 = q.2 ∧ p.2 = q.1)

instance (p q : Nat × Nat) : Decidable (distinct_unordered p q) :=
  inferInstanceAs (Decidable (¬(p.1 = q.1 ∧ p.2 = q.2) ∧ ¬(p.1 = q.2 ∧ p.2 = q.1)))

/-- Membership of a point in a box. -/
def in_box (b : Box) (p : Point_3) : Prop :=
  b.bbox.xmin ≤ p.x ∧ p.x ≤ b.bbox.xmax ∧
  b.bbox.ymin ≤ p.y ∧ p.y ≤ b.bbox.ymax ∧
  b.bbox.zmin ≤ p.z ∧ p.z ≤ b.bbox.zmax

/-- Convex combination of three points with weights a, b, c; with
nonnegative weights summing to 1 this ranges over the closed triangle. -/
def comb (a b c : ℚ) (p q r : Point_3) : Point_3 :=
  ⟨a * p.x + b * q.x + c * r.x,
   a * p.y + b * q.y + c * r.y,
   a * p.z + b * q.z + c * r.z⟩

/-- Failure raised by a geometric predicate of the kernel when it cannot
classify a configuration. -/
structure Geom_error where
  code : Nat
deriving DecidableEq

/-- Geometry kernel collaborator whose predicates may fail. -/
structure GKernelE where
  triSeg : Triangle_3 → Segment_3 → Except Geom_error Bool
  triTri : Triangle_3 → Triangle_3 → Except Geom_error Bool

/-- Narrow phase under a fallible kernel: the same control flow as
intersect_facets, with a predicate failure aborting the candidate (the
C++ exception propagates); note the second triangle-segment predicate
only runs when the first returned false, as in the source's else-if. -/
def intersect_facetsE (K : GKernelE) (m : Mesh) (ia ib : Nat) :
    Except Geom_error (List Triangle_3) :=
  let A := facetAt m ia
  let B := facetAt m ib
  if shares_edge A ib then .ok []
  else
    match scanShared A B with
    | some (r, j) =>
        let t1 := triangle_of m A r
        let t2 := triangle_of m B j
        let s1 := segment_of m A r
        let s2 := segment_of m B j
        do
          let b1 ← K.triSeg t1 s2
          if b1 then pure [t1, t2]
          else do
            let b2 ← K.triSeg t2 s1
            if b2 then pure [t1, t2] else pure []
    | none => do
        let b1 ← K.triTri (triangle_of m A 2) (triangle_of m B 0)
        if b1 then pure [triangle_of m A 2, triangle_of m B 0] else pure []

/-- Enumeration run under a fallible kernel: candidates processed in
order, the first predicate failure aborting the whole run. -/
def run_candidatesE (K : GKernelE) (m : Mesh) :
    List (Nat × Nat) → Except Geom_error (List Triangle_3)
  | [] => .ok []
  | p :: rest => do
      let out ← intersect_facetsE K m p.1 p.2
      let outs ← run_candidatesE K m rest
      pure (out ++ outs)

/-- Reason the existence scan stopped early: either the throwing output
iterator fired (first intersection verdict) or a geometric predicate
failed. -/
inductive Scan_stop where
  | throw_at_output
  | geom_fail (e : Geom_error)
deriving DecidableEq

/-- Existence scan under a fallible kernel with the throwing output
iterator: stops at the first candidate that writes output or at the first
predicate failure, whichever comes first in candidate order. -/
def scanE (K : GKernelE) (m : Mesh) :
    List (Nat × Nat) → Except Scan_stop Unit
  | [] => .ok ()
  | p :: rest =>
      match intersect_facetsE K m p.1 p.2 with
      | .error e => .error (.geom_fail e)
      | .ok [] => scanE K m rest
      | .ok (_ :: _) => .error .throw_at_output

/-- Failures visible to callers of the entry points: the fatal
precondition violation or a propagated geometric predicate failure.  The
internal throw-at-output signal has no constructor here: it cannot cross
the entry-point boundary. -/
inductive Top_error where
  | invalid_mesh
  | geom (e : Geom_error)
deriving DecidableEq

/-- Enumeration entry point under a fallible kernel: a predicate failure
propagates to the caller as a geometric error. -/
def self_intersectE (K : GKernelE) (broad : List Box → List (Nat × Nat))
    (m : Mesh) : Except Top_error (List Triangle_3) :=
  if is_pure_triangle m then
    match run_candidatesE K m (broad (make_boxes m)) with
    | .ok outs => .ok outs
    | .error e => .error (.geom e)
  else .error .invalid_mesh

/-- Existence entry point under a fallible kernel: the try block absorbs
exactly the throw-at-output signal, converting it to true; a geometric
predicate failure propagates unchanged. -/
def self_intersect_boolE (K : GKernelE) (broad : List Box → List (Nat × Nat))
    (m : Mesh) : Except Top_error Bool :=
  if is_pure_triangle m then
    match scanE K m (broad (make_boxes m)) with
    | .ok () => .ok false
    | .error .throw_at_output => .ok true
    | .error (.geom_fail e) => .error (.geom e)
  else .error .invalid_mesh

/-!
Theorems for the claims, with shared fixtures for the witnesses.
-/

/-- Helper: a successful shared-vertex scan really found equal vertex
handles at the reported positions. -/
lemma scanShared_vtx_eq (A B : Facet) (r j : Nat)
    (h : scanShared A B = some (r, j)) :
    (heAt A r).vtx = (heAt B j).vtx := by
  unfold scanShared at h
  split_ifs at h
  all_goals first
  | exact Option.noConfusion h
  | (simp only [Option.some.injEq, Prod.mk.injEq] at h
     obtain ⟨h1, h2⟩ := h
     subst h1
     subst h2
     assumption)

/-- C2: for every candidate facet pair delivered by the broad phase, if
any of A's 3 boundary half-edges has its opposite half-edge owned by
facet B, the verdict is no-intersection: nothing is emitted for the
pair, regardless of the geometric predicates. -/
theorem C2_shared_edge_excluded (K : GKernel) (m : Mesh) (ia ib : Nat)
    (h : shares_edge (facetAt m ia) ib = true) :
    intersect_facets K m ia ib = [] := by
  simp [intersect_facets, h]

/-- C1: for a candidate pair with no shared edge on which the scan found
a shared vertex (source variables h at position r of A and v at position
j of B, both heading the shared vertex V), the verdict is intersection
iff triangle A, read from V, intersects the segment between B's other
two vertices, or triangle B, read from V, intersects the segment between
A's other two vertices; on intersection both triangles are emitted,
otherwise nothing is. -/
theorem C1_shared_vertex_verdict (K : GKernel) (m : Mesh) (ia ib r j : Nat)
    (hA : (facetAt m ia).hedges.length = 3)
    (hB : (facetAt m ib).hedges.length = 3)
    (hedge : shares_edge (facetAt m ia) ib = false)
    (hscan : scanShared (facetAt m ia) (facetAt m ib) = some (r, j)) :
    intersect_facets K m ia ib =
      if K.triSeg (triangle_of m (facetAt m ia) r) (segment_of m (facetAt m ib) j)
          || K.triSeg (triangle_of m (facetAt m ib) j) (segment_of m (facetAt m ia) r)
      then [triangle_of m (facetAt m ia) r, triangle_of m (facetAt m ib) j]
      else [] := by
  by_cases hb1 : K.triSeg (triangle_of m (facetAt m ia) r)
      (segment_of m (facetAt m ib) j) = true
  · simp [intersect_facets, hedge, hscan, hb1]
  · by_cases hb2 : K.triSeg (triangle_of m (facetAt m ib) j)
        (segment_of m (facetAt m ia) r) = true
    · simp [intersect_facets, hedge, hscan, hb1, hb2]
    · simp [intersect_facets, hedge, hscan, hb1, hb2]

/-- C3: for a candidate pair with no shared edge and no shared vertex,
the verdict is intersection iff the exact triangle-triangle predicate
holds on the two facet triangles (stated on the canonical readings via
the kernel's invariance under cyclic rotation of a triangle's vertices;
the source hands over facet A read from position 2, where the failed
scan left the half-edge h), and on intersection the pair is emitted in
the fixed order: A's triangle first, then B's. -/
theorem C3_general_case (K : GKernel) (m : Mesh) (ia ib : Nat)
    (hA : (facetAt m ia).hedges.length = 3)
    (hrot : ∀ a b c s, K.triTri (a, b, c) s = K.triTri (b, c, a) s)
    (hedge : shares_edge (facetAt m ia) ib = false)
    (hscan : scanShared (facetAt m ia) (facetAt m ib) = none) :
    intersect_facets K m ia ib =
      if K.triTri (triangle_of m (facetAt m ia) 0) (triangle_of m (facetAt m ib) 0)
      then [triangle_of m (facetAt m ia) 2, triangle_of m (facetAt m ib) 0]
      else [] := by
  have h3 : ptAt m (facetAt m ia) 3 = ptAt m (facetAt m ia) 0 := by
    unfold ptAt heAt
    rw [hA]
  have h4 : ptAt m (facetAt m ia) 4 = ptAt m (facetAt m ia) 1 := by
    unfold ptAt heAt
    rw [hA]
  have hcond : K.triTri (triangle_of m (facetAt m ia) 2)
      (triangle_of m (facetAt m ib) 0)
      = K.triTri (triangle_of m (facetAt m ia) 0)
      (triangle_of m (facetAt m ib) 0) := by
    unfold triangle_of
    rw [h3, h4]
    rw [hrot, hrot]
  simp only [intersect_facets, hedge, Bool.false_eq_true, if_false, hscan]
  rw [hcond]

/-- C10: whenever the shared-vertex branch emits, the output is exactly
the two triangles read from the matched positions, so both start at the
shared vertex V (equal vertex handles, hence equal first points) and
proceed in their facet's cyclic order. -/
theorem C10_emitted_triangles_start_at_V (K : GKernel) (m : Mesh)
    (ia ib r j : Nat)
    (hA : (facetAt m ia).hedges.length = 3)
    (hB : (facetAt m ib).hedges.length = 3)
    (hedge : shares_edge (facetAt m ia) ib = false)
    (hscan : scanShared (facetAt m ia) (facetAt m ib) = some (r, j))
    (hout : intersect_facets K m ia ib ≠ []) :
    intersect_facets K m ia ib =
      [triangle_of m (facetAt m ia) r, triangle_of m (facetAt m ib) j] ∧
    triangle_of m (facetAt m ia) r =
      (ptAt m (facetAt m ia) r, ptAt m (facetAt m ia) (r+1),
        ptAt m (facetAt m ia) (r+2)) ∧
    triangle_of m (facetAt m ib) j =
      (ptAt m (facetAt m ib) j, ptAt m (facetAt m ib) (j+1),
        ptAt m (facetAt m ib) (j+2)) ∧
    (heAt (facetAt m ia) r).vtx = (heAt (facetAt m ib) j).vtx ∧
    ptAt m (facetAt m ia) r = ptAt m (facetAt m ib) j := by
  have hv := scanShared_vtx_eq (facetAt m ia) (facetAt m ib) r j hscan
  refine ⟨?_, rfl, rfl, hv, ?_⟩
  · by_cases hb1 : K.triSeg (triangle_of m (facetAt m ia) r)
        (segment_of m (facetAt m ib) j) = true
    · simp [intersect_facets, hedge, hscan, hb1]
    · by_cases hb2 : K.triSeg (triangle_of m (facetAt m ib) j)
          (segment_of m (facetAt m ia) r) = true
      · simp [intersect_facets, hedge, hscan, hb1, hb2]
      · exfalso
        apply hout
        simp [intersect_facets, hedge, hscan, hb1, hb2]
  · unfold ptAt
    rw [hv]

/-- Fixture kernel whose predicates always answer true. -/
def Ktrue : GKernel := ⟨fun _ _ => true, fun _ _ => true⟩

/-- Fixture mesh: two triangles sharing exactly the vertex 0. -/
def meshV : Mesh :=
  ⟨[⟨[⟨0, none⟩, ⟨1, none⟩, ⟨2, none⟩]⟩,
    ⟨[⟨0, none⟩, ⟨3, none⟩, ⟨4, none⟩]⟩],
   fun n => ⟨n, 0, 0⟩⟩

/-- Fixture mesh: two triangles glued along the full edge 0-1. -/
def meshE : Mesh :=
  ⟨[⟨[⟨0, some 1⟩, ⟨1, none⟩, ⟨2, none⟩]⟩,
    ⟨[⟨1, some 0⟩, ⟨0, none⟩, ⟨5, none⟩]⟩],
   fun n => ⟨n, 0, 0⟩⟩

/-- Fixture mesh: two triangles with disjoint vertex sets. -/
def meshG : Mesh :=
  ⟨[⟨[⟨0, none⟩, ⟨1, none⟩, ⟨2, none⟩]⟩,
    ⟨[⟨3, none⟩, ⟨4, none⟩, ⟨5, none⟩]⟩],
   fun n => ⟨n, 0, 0⟩⟩

theorem C2_witness :
    shares_edge (facetAt meshE 0) 1 = true ∧
    intersect_facets Ktrue meshE 0 1 = [] :=
  ⟨by decide, C2_shared_edge_excluded Ktrue meshE 0 1 (by decide)⟩

theorem C1_witness :
    ((facetAt meshV 0).hedges.length = 3 ∧
     (facetAt meshV 1).hedges.length = 3 ∧
     shares_edge (facetAt meshV 0) 1 = false ∧
     scanShared (facetAt meshV 0) (facetAt meshV 1) = some (0, 0)) ∧
    intersect_facets Ktrue meshV 0 1 =
      (if Ktrue.triSeg (triangle_of meshV (facetAt meshV 0) 0)
            (segment_of meshV (facetAt meshV 1) 0)
          || Ktrue.triSeg (triangle_of meshV (facetAt meshV 1) 0)
            (segment_of meshV (facetAt meshV 0) 0)
       then [triangle_of meshV (facetAt meshV 0) 0,
             triangle_of meshV (facetAt meshV 1) 0]
       else []) :=
  ⟨⟨by decide, by decide, by decide, by decide⟩,
   C1_shared_vertex_verdict Ktrue meshV 0 1 0 0
     (by decide) (by decide) (by decide) (by decide)⟩

theorem C3_witness :
    ((facetAt meshG 0).hedges.length = 3 ∧
     shares_edge (facetAt meshG 0) 1 = false ∧
     scanShared (facetAt meshG 0) (facetAt meshG 1) = none) ∧
    intersect_facets Ktrue meshG 0 1 =
      (if Ktrue.triTri (triangle_of meshG (facetAt meshG 0) 0)
            (triangle_of meshG (facetAt meshG 1) 0)
       then [triangle_of meshG (facetAt meshG 0) 2,
             triangle_of meshG (facetAt meshG 1) 0]
       else []) :=
  ⟨⟨by decide, by decide, by decide⟩,
   C3_general_case Ktrue meshG 0 1 (by decide) (fun _ _ _ _ => rfl)
     (by decide) (by decide)⟩

theorem C10_witness :
    ((facetAt meshV 0).hedges.length = 3 ∧
     (facetAt meshV 1).hedges.length = 3 ∧
     shares_edge (facetAt meshV 0) 1 = false ∧
     scanShared (facetAt meshV 0) (facetAt meshV 1) = some (0, 0) ∧
     intersect_facets Ktrue meshV 0 1 ≠ []) ∧
    (intersect_facets Ktrue meshV 0 1 =
      [triangle_of meshV (facetAt meshV 0) 0,
       triangle_of meshV (facetAt meshV 1) 0] ∧
     triangle_of meshV (facetAt meshV 0) 0 =
       (ptAt meshV (facetAt meshV 0) 0, ptAt meshV (facetAt meshV 0) 1,
         ptAt meshV (facetAt meshV 0) 2) ∧
     triangle_of meshV (facetAt meshV 1) 0 =
       (ptAt meshV (facetAt meshV 1) 0, ptAt meshV (facetAt meshV 1) 1,
         ptAt meshV (facetAt meshV 1) 2) ∧
     (heAt (facetAt meshV 0) 0).vtx = (heAt (facetAt meshV 1) 0).vtx ∧
     ptAt meshV (facetAt meshV 0) 0 = ptAt meshV (facetAt meshV 1) 0) :=
  ⟨⟨by decide, by decide, by decide, by decide, by decide⟩,
   C10_emitted_triangles_start_at_V Ktrue meshV 0 1 0 0
     (by decide) (by decide) (by decide) (by decide) (by decide)⟩

set_option maxHeartbeats 2000000 in
/-- C6: the source's shared-vertex scan agrees with the specification's
first-match scan on which of A's vertices matches (the round index) and
on the designated shared vertex V.  Inside one round the source keeps the
last matching half-edge of B, but every match of that round heads the
same vertex, so the selected shared vertex is the one of the first equal
pair in the fixed traversal order. -/
theorem C6_scan_first_match (A B : Facet)
    (hA : A.hedges.length = 3) (hB : B.hedges.length = 3) :
    (scanShared A B).map (fun p => (p.1, (heAt B p.2).vtx)) =
    (first_shared_vertex A B).map (fun p => (p.1, (heAt B p.2).vtx)) := by
  unfold scanShared first_shared_vertex
  split_ifs <;> simp_all

/-- Helper: the throwing existence scan fires exactly when the
enumeration over the same candidates produces output. -/
lemma scan_throw_iff (K : GKernel) (m : Mesh) (cands : List (Nat × Nat)) :
    scan_throw K m cands = true ↔ run_candidates K m cands ≠ [] := by
  induction cands with
  | nil => simp [scan_throw, run_candidates]
  | cons p rest ih =>
      simp only [scan_throw, run_candidates, List.flatMap_cons] at ih ⊢
      by_cases h : intersect_facets K m p.1 p.2 = []
      · simp [h, ih]
      · simp [h]

/-- C4: on a pure triangulation, the enumeration entry point returns the
full candidate run, and the existence entry point returns true exactly
when that run emits at least one pair and false exactly when the scan
completes with zero verdicts. -/
theorem C4_existence_iff_enumeration (K : GKernel)
    (broad : List Box → List (Nat × Nat)) (m : Mesh)
    (hpure : is_pure_triangle m = true) :
    self_intersect K broad m =
      .ok (run_candidates K m (broad (make_boxes m))) ∧
    (self_intersect_bool K broad m = .ok true ↔
      run_candidates K m (broad (make_boxes m)) ≠ []) ∧
    (self_intersect_bool K broad m = .ok false ↔
      run_candidates K m (broad (make_boxes m)) = []) := by
  have h := scan_throw_iff K m (broad (make_boxes m))
  refine ⟨by simp [self_intersect, hpure], ?_, ?_⟩
  · cases hsc : scan_throw K m (broad (make_boxes m)) <;>
      simp_all [self_intersect_bool, hpure]
  · cases hsc : scan_throw K m (broad (make_boxes m)) <;>
      simp_all [self_intersect_bool, hpure]

/-- Helper: the enumeration output is the concatenation, in candidate
order, of the outputs of exactly the candidates on which the narrow
phase emitted. -/
lemma run_eq_emitted (K : GKernel) (m : Mesh) (cands : List (Nat × Nat)) :
    run_candidates K m cands =
      (emitted_pairs K m cands).flatMap
        (fun p => intersect_facets K m p.1 p.2) := by
  induction cands with
  | nil => simp [run_candidates, emitted_pairs]
  | cons p rest ih =>
      simp only [run_candidates, emitted_pairs, List.flatMap_cons,
        List.filter_cons] at ih ⊢
      by_cases h : intersect_facets K m p.1 p.2 = []
      · simp [h, ih]
      · simp [h, ih]

/-- C7: assuming the broad phase reports each unordered box pair at most
once and never a box against itself, the candidates that actually emit
are pairwise distinct as unordered facet pairs, and the enumeration
output is exactly their outputs in order, so no unordered facet pair is
ever reported twice. -/
theorem C7_no_duplicate_unordered_pairs (K : GKernel) (m : Mesh)
    (broad : List Box → List (Nat × Nat))
    (hirr : ∀ p ∈ broad (make_boxes m), p.1 ≠ p.2)
    (huniq : (broad (make_boxes m)).Pairwise distinct_unordered) :
    (emitted_pairs K m (broad (make_boxes m))).Pairwise distinct_unordered ∧
    run_candidates K m (broad (make_boxes m)) =
      (emitted_pairs K m (broad (make_boxes m))).flatMap
        (fun p => intersect_facets K m p.1 p.2) :=
  ⟨List.Pairwise.sublist (List.filter_sublist _) huniq,
   run_eq_emitted K m (broad (make_boxes m))⟩

/-- Fixture broad phase reporting the single candidate pair (0, 1). -/
def broad01 : List Box → List (Nat × Nat) := fun _ => [(0, 1)]

theorem C6_witness :
    ((facetAt meshV 0).hedges.length = 3 ∧
     (facetAt meshV 1).hedges.length = 3) ∧
    (scanShared (facetAt meshV 0) (facetAt meshV 1)).map
        (fun p => (p.1, (heAt (facetAt meshV 1) p.2).vtx)) =
      (first_shared_vertex (facetAt meshV 0) (facetAt meshV 1)).map
        (fun p => (p.1, (heAt (facetAt meshV 1) p.2).vtx)) :=
  ⟨⟨by decide, by decide⟩,
   C6_scan_first_match (facetAt meshV 0) (facetAt meshV 1)
     (by decide) (by decide)⟩

theorem C4_witness :
    is_pure_triangle meshV = true ∧
    (self_intersect Ktrue broad01 meshV =
      .ok (run_candidates Ktrue meshV (broad01 (make_boxes meshV))) ∧
    (self_intersect_bool Ktrue broad01 meshV = .ok true ↔
      run_candidates Ktrue meshV (broad01 (make_boxes meshV)) ≠ []) ∧
    (self_intersect_bool Ktrue broad01 meshV = .ok false ↔
      run_candidates Ktrue meshV (broad01 (make_boxes meshV)) = [])) :=
  ⟨by decide,
   C4_existence_iff_enumeration Ktrue broad01 meshV (by decide)⟩

theorem C7_witness :
    ((∀ p ∈ broad01 (make_boxes meshV), p.1 ≠ p.2) ∧
     (broad01 (make_boxes meshV)).Pairwise distinct_unordered) ∧
    ((emitted_pairs Ktrue meshV (broad01 (make_boxes meshV))).Pairwise
        distinct_unordered ∧
     run_candidates Ktrue meshV (broad01 (make_boxes meshV)) =
       (emitted_pairs Ktrue meshV (broad01 (make_boxes meshV))).flatMap
         (fun p => intersect_facets Ktrue meshV p.1 p.2)) :=
  ⟨⟨by decide, by simp [broad01]⟩,
   C7_no_duplicate_unordered_pairs Ktrue meshV broad01
     (by decide) (by simp [broad01])⟩

/-- C5: on a pure triangulation the existence entry point absorbs exactly
the internal throw-at-output signal (first verdict, converted to true),
maps a completed scan to false, and lets a geometric predicate failure
pass unchanged; the enumeration entry point likewise propagates predicate
failures unchanged.  The Top_error type has no constructor for the
internal signal, so it can never cross the entry-point boundary. -/
theorem C5_only_cancellation_absorbed (K : GKernelE)
    (broad : List Box → List (Nat × Nat)) (m : Mesh)
    (hpure : is_pure_triangle m = true) :
    (∀ e, self_intersect_boolE K broad m = .error (.geom e) ↔
      scanE K m (broad (make_boxes m)) = .error (.geom_fail e)) ∧
    (self_intersect_boolE K broad m = .ok true ↔
      scanE K m (broad (make_boxes m)) = .error .throw_at_output) ∧
    (self_intersect_boolE K broad m = .ok false ↔
      scanE K m (broad (make_boxes m)) = .ok ()) ∧
    (∀ e, self_intersectE K broad m = .error (.geom e) ↔
      run_candidatesE K m (broad (make_boxes m)) = .error e) := by
  refine ⟨?_, ?_, ?_, ?_⟩
  · intro e
    rcases hs : scanE K m (broad (make_boxes m)) with st | u
    · cases st <;> simp [self_intersect_boolE, hpure, hs]
    · simp [self_intersect_boolE, hpure, hs]
  · rcases hs : scanE K m (broad (make_boxes m)) with st | u
    · cases st <;> simp [self_intersect_boolE, hpure, hs]
    · simp [self_intersect_boolE, hpure, hs]
  · rcases hs : scanE K m (broad (make_boxes m)) with st | u
    · cases st <;> simp [self_intersect_boolE, hpure, hs]
    · simp [self_intersect_boolE, hpure, hs]
  · intro e
    rcases hs : run_candidatesE K m (broad (make_boxes m)) with e2 | outs
    · simp [self_intersectE, hpure, hs]
    · simp [self_intersectE, hpure, hs]

/-- Helper: a convex combination with nonnegative weights summing to one
is bounded below by the minimum of the combined values. -/
lemma comb_lower (a b c x0 x1 x2 : ℚ) (ha : 0 ≤ a) (hb : 0 ≤ b)
    (hc : 0 ≤ c) (habc : a + b + c = 1) :
    min (min x0 x1) x2 ≤ a * x0 + b * x1 + c * x2 := by
  set M := min (min x0 x1) x2 with hM
  have h0 : M ≤ x0 := le_trans (min_le_left _ _) (min_le_left _ _)
  have h1 : M ≤ x1 := le_trans (min_le_left _ _) (min_le_right _ _)
  have h2 : M ≤ x2 := min_le_right _ _
  have key : a * M + b * M + c * M = M := by
    have h3 : a * M + b * M + c * M = (a + b + c) * M := by ring
    rw [h3, habc, one_mul]
  linarith [mul_le_mul_of_nonneg_left h0 ha,
    mul_le_mul_of_nonneg_left h1 hb, mul_le_mul_of_nonneg_left h2 hc]

/-- Helper: a convex combination with nonnegative weights summing to one
is bounded above by the maximum of the combined values. -/
lemma comb_upper (a b c x0 x1 x2 : ℚ) (ha : 0 ≤ a) (hb : 0 ≤ b)
    (hc : 0 ≤ c) (habc : a + b + c = 1) :
    a * x0 + b * x1 + c * x2 ≤ max (max x0 x1) x2 := by
  set M := max (max x0 x1) x2 with hM
  have h0 : x0 ≤ M := le_trans (le_max_left _ _) (le_max_left _ _)
  have h1 : x1 ≤ M := le_trans (le_max_right _ _) (le_max_left _ _)
  have h2 : x2 ≤ M := le_max_right _ _
  have key : a * M + b * M + c * M = M := by
    have h3 : a * M + b * M + c * M = (a + b + c) * M := by ring
    rw [h3, habc, one_mul]
  linarith [mul_le_mul_of_nonneg_left h0 ha,
    mul_le_mul_of_nonneg_left h1 hb, mul_le_mul_of_nonneg_left h2 hc]

/-- C8: the box builder produces exactly one box per facet, the i-th box
is the box of facet i tagged with handle i and covering the pointwise
min and max of the facet's three vertex positions, and it contains every
convex combination of the three vertices, hence the whole triangle. -/
theorem C8_box_builder (m : Mesh) (i : Nat) (hi : i < m.facets.length)
    (a b c : ℚ) (ha : 0 ≤ a) (hb : 0 ≤ b) (hc : 0 ≤ c)
    (habc : a + b + c = 1) :
    (make_boxes m).length = m.facets.length ∧
    (make_boxes m).getD i ⟨⟨0, 0, 0, 0, 0, 0⟩, 0⟩ = facet_box m i ∧
    (facet_box m i).handle = i ∧
    in_box (facet_box m i)
      (comb a b c (ptAt m (facetAt m i) 0) (ptAt m (facetAt m i) 1)
        (ptAt m (facetAt m i) 2)) := by
  refine ⟨by simp [make_boxes], ?_, rfl, ?_⟩
  · have hlen : i < ((List.range m.facets.length).map (facet_box m)).length := by
      simpa using hi
    rw [make_boxes, List.getD_eq_getElem _ _ hlen]
    simp
  · simp only [in_box, facet_box, comb, bbox_add, point_bbox]
    exact ⟨comb_lower _ _ _ _ _ _ ha hb hc habc,
      comb_upper _ _ _ _ _ _ ha hb hc habc,
      comb_lower _ _ _ _ _ _ ha hb hc habc,
      comb_upper _ _ _ _ _ _ ha hb hc habc,
      comb_lower _ _ _ _ _ _ ha hb hc habc,
      comb_upper _ _ _ _ _ _ ha hb hc habc⟩

/-- C9: when the pure-triangulation precondition fails, every entry
point reports the fatal invalid-mesh condition, whatever the kernel and
whatever candidates the broad phase would deliver: the check happens
before any box is built or candidate pair is tested, and the violation
is never handled per pair. -/
theorem C9_precondition_checked_first (m : Mesh)
    (hbad : is_pure_triangle m = false) :
    ∀ (K : GKernel) (KE : GKernelE) (b1 b2 : List Box → List (Nat × Nat)),
      self_intersect K b1 m = .error .invalid_mesh ∧
      self_intersect_bool K b1 m = .error .invalid_mesh ∧
      self_intersectE KE b2 m = .error .invalid_mesh ∧
      self_intersect_boolE KE b2 m = .error .invalid_mesh := by
  intro K KE b1 b2
  refine ⟨?_, ?_, ?_, ?_⟩ <;>
    simp [self_intersect, self_intersect_bool, self_intersectE,
      self_intersect_boolE, hbad]

/-- Fixture fallible kernel whose predicates always fail. -/
def KEfail : GKernelE :=
  ⟨fun _ _ => .error ⟨7⟩, fun _ _ => .error ⟨7⟩⟩

/-- Fixture mesh with one quadrilateral facet, violating the
pure-triangulation precondition. -/
def meshQ : Mesh :=
  ⟨[⟨[⟨0, none⟩, ⟨1, none⟩, ⟨2, none⟩, ⟨3, none⟩]⟩], fun n => ⟨n, 0, 0⟩⟩

theorem C5_witness :
    is_pure_triangle meshV = true ∧
    ((∀ e, self_intersect_boolE KEfail broad01 meshV = .error (.geom e) ↔
      scanE KEfail meshV (broad01 (make_boxes meshV)) = .error (.geom_fail e)) ∧
    (self_intersect_boolE KEfail broad01 meshV = .ok true ↔
      scanE KEfail meshV (broad01 (make_boxes meshV)) = .error .throw_at_output) ∧
    (self_intersect_boolE KEfail broad01 meshV = .ok false ↔
      scanE KEfail meshV (broad01 (make_boxes meshV)) = .ok ()) ∧
    (∀ e, self_intersectE KEfail broad01 meshV = .error (.geom e) ↔
      run_candidatesE KEfail meshV (broad01 (make_boxes meshV)) = .error e)) :=
  ⟨by decide,
   C5_only_cancellation_absorbed KEfail broad01 meshV (by decide)⟩

theorem C8_witness :
    ((0 : Nat) < meshV.facets.length ∧ (0 : ℚ) ≤ 1 ∧ (0 : ℚ) ≤ 0 ∧
      (1 : ℚ) + 0 + 0 = 1) ∧
    ((make_boxes meshV).length = meshV.facets.length ∧
     (make_boxes meshV).getD 0 ⟨⟨0, 0, 0, 0, 0, 0⟩, 0⟩ = facet_box meshV 0 ∧
     (facet_box meshV 0).handle = 0 ∧
     in_box (facet_box meshV 0)
       (comb 1 0 0 (ptAt meshV (facetAt meshV 0) 0)
         (ptAt meshV (facetAt meshV 0) 1) (ptAt meshV (facetAt meshV 0) 2))) :=
  ⟨⟨by decide, by norm_num, le_refl 0, by norm_num⟩,
   C8_box_builder meshV 0 (by decide) 1 0 0 (by norm_num) (le_refl 0)
     (le_refl 0) (by norm_num)⟩

theorem C9_witness :
    is_pure_triangle meshQ = false ∧
    (self_intersect Ktrue broad01 meshQ = .error .invalid_mesh ∧
     self_intersect_bool Ktrue broad01 meshQ = .error .invalid_mesh ∧
     self_intersectE KEfail broad01 meshQ = .error .invalid_mesh ∧
     self_intersect_boolE KEfail broad01 meshQ = .error .invalid_mesh) :=
  ⟨by decide,
   C9_precondition_checked_first meshQ (by decide) Ktrue KEfail broad01 broad01⟩
